import Mathlib

/-!
Verification of the not-RISK backend asset pipeline.

Bytes are modelled as `List Nat` with each element `< 256`.  Strings
(content types, file names, body fields) are Lean `String`s.  The
compression core (`zlib.gzip` / `zlib.gunzip`, an external library the
source calls through `src/utils/compression.js`) is modelled from the
spec's Codec contract; everything else is a direct embedding of the
JavaScript source.
-/

namespace NotRisk

/-- A byte buffer: every element is an octet. -/
def ValidBytes (l : List Nat) : Prop := ∀ b ∈ l, b < 256

instance decidableValidBytes (l : List Nat) : Decidable (ValidBytes l) :=
  inferInstanceAs (Decidable (∀ b ∈ l, b < 256))

/-! ### Base64 (Node `Buffer.prototype.toString('base64')` / `Buffer.from(_, 'base64')`)

Standard RFC 4648 base64 with `=` (code 61) padding, over byte lists. -/

/-- Map a 6-bit group to its base64 alphabet character code. -/
def sixToChar (n : Nat) : Nat :=
  if n < 26 then 65 + n
  else if n < 52 then 71 + n
  else if n < 62 then n - 4
  else if n = 62 then 43
  else 47

/-- Map a base64 alphabet character code back to its 6-bit group. -/
def charToSix (c : Nat) : Nat :=
  if 65 ≤ c ∧ c ≤ 90 then c - 65
  else if 97 ≤ c ∧ c ≤ 122 then c - 71
  else if 48 ≤ c ∧ c ≤ 57 then c + 4
  else if c = 43 then 62
  else if c = 47 then 63
  else 0

/-- Base64-encode a byte list (3 bytes → 4 characters, `=`-padded). -/
def b64encode : List Nat → List Nat
  | [] => []
  | [a] => [sixToChar (a / 4), sixToChar (a % 4 * 16), 61, 61]
  | [a, b] => [sixToChar (a / 4), sixToChar (a % 4 * 16 + b / 16), sixToChar (b % 16 * 4), 61]
  | a :: b :: c :: rest =>
      sixToChar (a / 4) :: sixToChar (a % 4 * 16 + b / 16) ::
      sixToChar (b % 16 * 4 + c / 64) :: sixToChar (c % 64) :: b64encode rest

/-- Base64-decode a character-code list (4 characters → up to 3 bytes). -/
def b64decode : List Nat → List Nat
  | w :: x :: y :: z :: rest =>
      if y = 61 then [charToSix w * 4 + charToSix x / 16]
      else if z = 61 then
        [charToSix w * 4 + charToSix x / 16, charToSix x % 16 * 16 + charToSix y / 4]
      else
        (charToSix w * 4 + charToSix x / 16) ::
        (charToSix x % 16 * 16 + charToSix y / 4) ::
        (charToSix y % 4 * 64 + charToSix z) :: b64decode rest
  | _ => []

lemma charToSix_sixToChar : ∀ n, n < 64 → charToSix (sixToChar n) = n := by decide

lemma sixToChar_ne_61 : ∀ n, n < 64 → sixToChar n ≠ 61 := by decide

lemma b64_roundtrip : ∀ l : List Nat, ValidBytes l → b64decode (b64encode l) = l := by
  intro l
  induction l using b64encode.induct with
  | case1 =>
      intro _; rfl
  | case2 a =>
      intro hv
      have ha : a < 256 := hv a (by simp)
      have h1 : a / 4 < 64 := by omega
      have h2 : a % 4 * 16 < 64 := by omega
      simp only [b64encode, b64decode, charToSix_sixToChar _ h1, charToSix_sixToChar _ h2,
        eq_self_iff_true, if_true, List.cons.injEq, and_true]
      omega
  | case3 a b =>
      intro hv
      have ha : a < 256 := hv a (by simp)
      have hb : b < 256 := hv b (by simp)
      have h1 : a / 4 < 64 := by omega
      have h2 : a % 4 * 16 + b / 16 < 64 := by omega
      have h3 : b % 16 * 4 < 64 := by omega
      have n3 := sixToChar_ne_61 _ h3
      simp only [b64encode, b64decode, n3, eq_self_iff_true, if_true, if_false,
        charToSix_sixToChar _ h1, charToSix_sixToChar _ h2, charToSix_sixToChar _ h3,
        List.cons.injEq, and_true]
      omega
  | case4 a b c rest ih =>
      intro hv
      have ha : a < 256 := hv a (by simp)
      have hb : b < 256 := hv b (by simp)
      have hc : c < 256 := hv c (by simp)
      have hrest : ValidBytes rest := fun x hx => hv x (by simp [hx])
      have h1 : a / 4 < 64 := by omega
      have h2 : a % 4 * 16 + b / 16 < 64 := by omega
      have h3 : b % 16 * 4 + c / 64 < 64 := by omega
      have h4 : c % 64 < 64 := by omega
      have n3 := sixToChar_ne_61 _ h3
      have n4 := sixToChar_ne_61 _ h4
      simp only [b64encode, b64decode, n3, n4, if_false,
        charToSix_sixToChar _ h1, charToSix_sixToChar _ h2,
        charToSix_sixToChar _ h3, charToSix_sixToChar _ h4,
        List.cons.injEq, ih hrest, and_true]
      omega

lemma sixToChar_lt (n : Nat) : sixToChar n < 256 := by
  unfold sixToChar
  repeat' split
  all_goals omega

lemma b64encode_valid : ∀ l : List Nat, ValidBytes (b64encode l) := by
  intro l
  induction l using b64encode.induct with
  | case1 => intro b hb; simp [b64encode] at hb
  | case2 a =>
      intro x hx
      simp only [b64encode, List.mem_cons, List.not_mem_nil, or_false, or_self] at hx
      rcases hx with h | h | h <;> subst h
      · exact sixToChar_lt _
      · exact sixToChar_lt _
      · omega
  | case3 a b =>
      intro x hx
      simp only [b64encode, List.mem_cons, List.not_mem_nil, or_false] at hx
      rcases hx with h | h | h | h <;> subst h
      · exact sixToChar_lt _
      · exact sixToChar_lt _
      · exact sixToChar_lt _
      · omega
  | case4 a b c rest ih =>
      intro x hx
      simp only [b64encode, List.mem_cons] at hx
      rcases hx with h | h | h | h | h
      · subst h; exact sixToChar_lt _
      · subst h; exact sixToChar_lt _
      · subst h; exact sixToChar_lt _
      · subst h; exact sixToChar_lt _
      · exact ih x h

/-! ### Compression core

`src/utils/compression.js` delegates the actual byte transform to
`zlib.gzip` / `zlib.gunzip`, which are not part of this repository. -/

/-- Modelled from the spec: the gzip member header written by `zlib.gzip` —
magic marker `0x1f 0x8b`, method 8 (deflate), no flags, zero mtime,
no extra flags, OS byte 3 (unix).  The spec requires the output to
"begin with a fixed 2-byte magic marker identifying the compressed format". -/
def gzipHeader : List Nat := [31, 139, 8, 0, 0, 0, 0, 0, 0, 3]

/-- Modelled from the spec: the integrity check a gzip member carries over
its payload (standing in for CRC32), reduced to one octet. -/
def checksum (l : List Nat) : Nat := l.foldl (fun a b => a + b + 1) 0 % 256

/-- Modelled from the spec: `zlib.gzip` — "deterministic lossless
compression" whose "output must begin with a fixed 2-byte magic marker".
Header, payload, then a trailer of integrity check and length octet. -/
def gzip (b : List Nat) : List Nat := gzipHeader ++ b ++ [checksum b, b.length % 256]

/-- Split a gzip body into payload and the two trailer octets. -/
def splitTrailer : List Nat → Option (List Nat × Nat × Nat)
  | [c, s] => some ([], c, s)
  | a :: b :: c :: rest =>
      match splitTrailer (b :: c :: rest) with
      | some (body, x, y) => some (a :: body, x, y)
      | none => none
  | _ => none

/-- Modelled from the spec: `zlib.gunzip` — checks the magic marker, the
method and flag octets and the trailer, but (like real gunzip) ignores
the mtime, extra-flags and OS octets of the header; fails (`none`) on
anything malformed or corrupt. -/
def gunzip (buf : List Nat) : Option (List Nat) :=
  match buf with
  | m1 :: m2 :: cm :: fl :: _ :: _ :: _ :: _ :: _ :: _ :: rest =>
      if m1 = 31 ∧ m2 = 139 ∧ cm = 8 ∧ fl = 0 then
        match splitTrailer rest with
        | some (body, c, s) =>
            if c = checksum body ∧ s = body.length % 256 then some body else none
        | none => none
      else none
  | _ => none

lemma splitTrailer_append (body : List Nat) (c s : Nat) :
    splitTrailer (body ++ [c, s]) = some (body, c, s) := by
  induction body with
  | nil => rfl
  | cons a rest ih =>
      cases rest with
      | nil => simp [splitTrailer]
      | cons b rest' =>
          cases rest' with
          | nil => simp [splitTrailer]
          | cons c' rest'' => simp [splitTrailer] at ih ⊢; simp [ih]

lemma gunzip_gzip (b : List Nat) : gunzip (gzip b) = some b := by
  simp [gzip, gzipHeader, gunzip, splitTrailer_append]

/-- `compressBuffer` from `src/utils/compression.js`: gzips the buffer.
(The source's try/catch only rewraps an internal gzip failure; the pure
model is total.  The handlers below are additionally parameterised over a
fallible compressor to state what happens when gzip itself fails.) -/
def compressBuffer (b : List Nat) : List Nat := gzip b

/-- `isGzipped` from `src/utils/compression.js`: true iff the buffer's
first two bytes are `0x1f 0x8b` (out-of-range reads are undefined in JS,
so buffers shorter than 2 are never considered gzipped). -/
def isGzipped : List Nat → Bool
  | a :: b :: _ => a = 31 && b = 139
  | _ => false

/-- `decompressBuffer` from `src/utils/compression.js`: returns the buffer
unchanged when it is not gzip-marked; otherwise gunzips it, and on any
decompression error swallows the error and returns the original buffer. -/
def decompressBuffer (buf : List Nat) : List Nat :=
  if isGzipped buf then (gunzip buf).getD buf else buf

lemma decompressBuffer_compressBuffer (b : List Nat) :
    decompressBuffer (compressBuffer b) = b := by
  have hg : isGzipped (gzip b) = true := by simp [gzip, gzipHeader, isGzipped]
  simp only [decompressBuffer, compressBuffer, hg, if_true, gunzip_gzip, Option.getD_some]

/-- Fallible compressor: `compressBuffer` built over an environment-supplied
gzip (`zlib.gzip` may fail internally); the source catches such a failure
and rethrows `Failed to compress file`. -/
def compressBufferE (gz : List Nat → Except String (List Nat)) (b : List Nat) :
    Except String (List Nat) :=
  match gz b with
  | Except.ok c => Except.ok c
  | Except.error _ => Except.error "Failed to compress file"

/-- The pure instantiation of the environment gzip: always succeeds. -/
def gzOk (b : List Nat) : Except String (List Nat) := Except.ok (gzip b)

/-! ### Data model (`db.js` schemas, as used by the appliance router) -/

/-- A multipart file part as delivered by multer's memory storage:
`buffer` holds the raw bytes, `mimetype` and `originalname` come from the
part headers. -/
structure File where
  buffer : List Nat
  mimetype : String
  originalname : String
deriving Repr, DecidableEq

/-- Multer memory storage sets `file.size` to the byte length of the buffer. -/
def File.size (f : File) : Nat := f.buffer.length

/-- An embedded asset (`productImage` subdocument of `applianceSchema`):
`data` is a stored text field holding base64 character codes. -/
structure Asset where
  data : List Nat
  contentType : String
  fileName : String
  fileSize : Nat
deriving Repr, DecidableEq

/-- An embedded receipt (`receipts` array entries of `applianceSchema`);
`createdAt` timestamps are not modelled. -/
structure Receipt where
  name : String
  data : List Nat
  contentType : String
  fileName : String
  fileSize : Nat
deriving Repr, DecidableEq

/-- An `Appliance` document.  `purchaseDate` is kept as its validated
string; `companyName` is nullable (`none` = null, the schema default).
Mongoose `trim` normalisation is not modelled. -/
structure Appliance where
  id : Nat
  userId : Nat
  name : String
  companyName : Option String
  modelNumber : String
  purchaseDate : String
  productImage : Asset
  receipts : List Receipt
deriving Repr, DecidableEq

/-- The persistent store: the `appliances` collection. -/
def Store := List Appliance

/-- A handler response: HTTP status plus the appliance payload, when one
is returned. -/
structure Response where
  status : Nat
  appliance : Option Appliance
deriving Repr, DecidableEq

/-- JavaScript `x || dflt` on an optional string: absent, null and the
empty string are all falsy. -/
def jsOr (o : Option String) (dflt : String) : String :=
  match o with
  | some s => if s = "" then dflt else s
  | none => dflt

/-- JavaScript `x || null` on an optional string. -/
def jsOrNull (o : Option String) : Option String :=
  match o with
  | some s => if s = "" then none else some s
  | none => none

/-! ### zod `applianceSchema` (shared by `POST /add` and `PUT /:id`) -/

/-- A request body for the appliance schema fields.  `none` stands for an
absent key (or JSON null, which zod's `.nullable().optional()` also
admits for `companyName`). -/
structure ApplianceBody where
  name : Option String
  companyName : Option String
  modelNumber : Option String
  purchaseDate : Option String
deriving Repr, DecidableEq

/-- The parsed data produced by a successful schema check. -/
structure ParsedAppliance where
  name : String
  companyName : Option String
  modelNumber : String
  purchaseDate : String
deriving Repr, DecidableEq

/-- `applianceSchema.safeParse`: `name` and `modelNumber` are required and
non-empty, `purchaseDate` is required and must satisfy the environment's
date parser (`zod .refine` over JS `Date.parse`), `companyName` is
optional and nullable. -/
def safeParse (dateParses : String → Bool) (b : ApplianceBody) : Option ParsedAppliance :=
  match b.name, b.modelNumber, b.purchaseDate with
  | some n, some m, some d =>
      if n.length ≥ 1 ∧ m.length ≥ 1 ∧ dateParses d then
        some ⟨n, b.companyName, m, d⟩
      else none
  | _, _, _ => none

/-! ### Multer upload gates -/

/-- The content-type allow-list of the appliance router's `upload`. -/
def allowedTypes : List String := ["image/jpeg", "image/png", "application/pdf"]

/-- The 5 MiB size ceiling (`limits.fileSize`). -/
def maxFileSize : Nat := 5 * 1024 * 1024

/-- One part through the appliance `upload` middleware: `fileFilter`
rejects a disallowed content-type; the size limit aborts a part larger
than 5 MiB (multer `LIMIT_FILE_SIZE`). -/
def multerPartErr (f : File) : Option String :=
  if f.mimetype ∈ allowedTypes then
    if f.size > maxFileSize then some "File too large" else none
  else some "only JPEG, PNG and PDF files are allowed"

/-- The appliance `upload` middleware over all incoming parts: the first
failing part aborts the request with its error. -/
def multerCheck : List File → Option String
  | [] => none
  | f :: rest =>
      match multerPartErr f with
      | some e => some e
      | none => multerCheck rest

/-- String suffix test over the underlying character lists. -/
def strEndsWith (s sfx : String) : Bool := sfx.data.isSuffixOf s.data

/-- The `user.js` upload filter: checks only the filename extension
(`/\.(jpg|jpeg|png|pdf)$/` on `originalname`), never the content-type,
plus the same 5 MiB limit. -/
def userUploadPartErr (f : File) : Option String :=
  if strEndsWith f.originalname ".jpg" ∨ strEndsWith f.originalname ".jpeg" ∨
      strEndsWith f.originalname ".png" ∨ strEndsWith f.originalname ".pdf" then
    if f.size > maxFileSize then some "File too large" else none
  else some "only image and PDFs allowed"

/-- `POST /user/upload`: a multer error surfaces as a 500 through the
error middleware; a missing file yields 400; otherwise the file is
accepted with 200.  No compression is involved anywhere on this route. -/
def userUploadRoute (file : Option File) : Response :=
  match file with
  | none => ⟨400, none⟩
  | some f =>
      match userUploadPartErr f with
      | some _ => ⟨500, none⟩
      | none => ⟨200, none⟩

/-! ### Appliance route handlers (`routes/appliance.js`) -/

/-- Store-generated id for a created document. -/
def nextId (store : List Appliance) : Nat :=
  store.foldr (fun a m => max a.id m) 0 + 1

/-- The files of a `POST /add` request
(`upload.fields([productImage, originalReceipt, insuranceReceipt])`). -/
structure AddFiles where
  productImage : Option File
  originalReceipt : Option File
  insuranceReceipt : Option File
deriving Repr, DecidableEq

/-- The body of a `POST /add` request: the schema fields plus the two
receipt-name fields the handler reads directly. -/
structure AddBody where
  name : Option String
  companyName : Option String
  modelNumber : Option String
  purchaseDate : Option String
  originalReceiptType : Option String
  insuranceReceiptType : Option String
deriving Repr, DecidableEq

/-- The schema fields of an add body. -/
def AddBody.fields (b : AddBody) : ApplianceBody :=
  ⟨b.name, b.companyName, b.modelNumber, b.purchaseDate⟩

/-- Build the receipt subdocument embedded by `POST /add`:
the stored `data` is the compressed bytes re-encoded as base64 text,
`fileSize` is multer's byte count of the original upload. -/
def mkReceipt (nm : String) (f : File) (compressed : List Nat) : Receipt :=
  ⟨nm, b64encode compressed, f.mimetype, f.originalname, f.size⟩

/-- Build the appliance document inserted by `Appliance.create` in
`POST /add` (original receipt first, insurance receipt second if present). -/
def mkAppliance (uid : Nat) (data : ParsedAppliance) (pimg : File) (cpi : List Nat)
    (orig : File) (cor : List Nat) (insv : Option (File × List Nat))
    (body : AddBody) (store : List Appliance) : Appliance :=
  { id := nextId store
    userId := uid
    name := data.name
    companyName := data.companyName
    modelNumber := data.modelNumber
    purchaseDate := data.purchaseDate
    productImage := ⟨b64encode cpi, pimg.mimetype, pimg.originalname, pimg.size⟩
    receipts :=
      mkReceipt (jsOr body.originalReceiptType "Original Receipt") orig cor ::
      (match insv with
       | some (ins, cin) => [mkReceipt (jsOr body.insuranceReceiptType "Insurance Receipt") ins cin]
       | none => []) }

/-- `POST /add` handler body (after multer): gate order is original
receipt present → purchase date parses → schema check → product image
present → compress each part → insert.  A compression failure is caught
by the handler's try/catch and answered with 500; no document is written
on any failure path.  The ISO re-serialisation of the already-validated
date before the schema check is not modelled (the schema's refine is
satisfied either way). -/
def addAppliance (uid : Nat) (gz : List Nat → Except String (List Nat))
    (dateParses : String → Bool) (files : AddFiles) (body : AddBody)
    (store : List Appliance) : Response × List Appliance :=
  match files.originalReceipt with
  | none => (⟨400, none⟩, store)
  | some orig =>
      match body.purchaseDate with
      | none => (⟨400, none⟩, store)
      | some d =>
          if dateParses d then
            match safeParse dateParses body.fields with
            | none => (⟨400, none⟩, store)
            | some data =>
                match files.productImage with
                | none => (⟨400, none⟩, store)
                | some pimg =>
                    match compressBufferE gz pimg.buffer with
                    | Except.error _ => (⟨500, none⟩, store)
                    | Except.ok cpi =>
                        match compressBufferE gz orig.buffer with
                        | Except.error _ => (⟨500, none⟩, store)
                        | Except.ok cor =>
                            match files.insuranceReceipt with
                            | some ins =>
                                match compressBufferE gz ins.buffer with
                                | Except.error _ => (⟨500, none⟩, store)
                                | Except.ok cin =>
                                    let app := mkAppliance uid data pimg cpi orig cor
                                      (some (ins, cin)) body store
                                    (⟨200, some app⟩, store ++ [app])
                            | none =>
                                let app := mkAppliance uid data pimg cpi orig cor none body store
                                (⟨200, some app⟩, store ++ [app])
          else (⟨400, none⟩, store)

/-- `POST /appliance/add` route: multer runs first; a multer error
(bad type or oversize part) is answered by the error middleware with
status 500 and the handler never runs. -/
def postAddRoute (uid : Nat) (gz : List Nat → Except String (List Nat))
    (dateParses : String → Bool) (files : AddFiles) (body : AddBody)
    (store : List Appliance) : Response × List Appliance :=
  match multerCheck (files.productImage.toList ++ files.originalReceipt.toList ++
      files.insuranceReceipt.toList) with
  | some _ => (⟨500, none⟩, store)
  | none => addAppliance uid gz dateParses files body store

/-- The decompressed transport view of a stored asset
(`Buffer.from(data, 'base64')` → `decompressBuffer` → `toString('base64')`). -/
def viewAsset (a : Asset) : Asset :=
  { a with data := b64encode (decompressBuffer (b64decode a.data)) }

/-- `GET /appliance/:id` handler: `Appliance.findById(req.params.id)` —
the authenticated user id is NOT part of the query; any appliance with
the requested id is returned (with its image decompressed), 404 only
when no such id exists at all. -/
def getApplianceById (_uid : Nat) (id : Nat) (store : List Appliance) : Response :=
  match store.find? (fun a => a.id == id) with
  | none => ⟨404, none⟩
  | some a =>
      ⟨200, some { a with productImage := viewAsset a.productImage,
                          companyName := jsOrNull a.companyName }⟩

/-- Apply the `PUT /:id` update payload
(`{...data, companyName: data.companyName || null}`) to a document. -/
def applyUpdate (d : ParsedAppliance) (a : Appliance) : Appliance :=
  { a with name := d.name
           modelNumber := d.modelNumber
           purchaseDate := d.purchaseDate
           companyName := jsOrNull d.companyName }

/-- `PUT /appliance/:id` handler: schema check (all of name, modelNumber,
purchaseDate required), then `Appliance.findByIdAndUpdate(req.params.id, ...)` —
again NOT scoped by the authenticated user id. -/
def updateAppliance (_uid : Nat) (id : Nat) (dateParses : String → Bool)
    (body : ApplianceBody) (store : List Appliance) : Response × List Appliance :=
  match safeParse dateParses body with
  | none => (⟨400, none⟩, store)
  | some d =>
      match store.find? (fun a => a.id == id) with
      | none => (⟨404, none⟩, store)
      | some a =>
          (⟨200, some (applyUpdate d a)⟩,
           store.map (fun b => if b.id == id then applyUpdate d b else b))

/-- `DELETE /appliance/:id` handler: `findOne({_id, userId})` scopes by
owner; only when the appliance is owned by the caller is it deleted. -/
def deleteAppliance (uid : Nat) (id : Nat) (store : List Appliance) :
    Response × List Appliance :=
  match store.find? (fun a => a.id == id && a.userId == uid) with
  | none => (⟨404, none⟩, store)
  | some _ => (⟨200, none⟩, store.filter (fun a => ¬ a.id = id))

/-- `PUT /appliance/:id/receipt` handler (after multer): owner-scoped
lookup, then the receipt is pushed with `data` holding the RAW uploaded
bytes base64-encoded — this path never calls `compressBuffer`. -/
def appendReceipt (uid : Nat) (id : Nat) (file : Option File)
    (bodyName : Option String) (store : List Appliance) : Response × List Appliance :=
  match store.find? (fun a => a.id == id && a.userId == uid) with
  | none => (⟨404, none⟩, store)
  | some a =>
      match file with
      | none => (⟨400, none⟩, store)
      | some f =>
          let r : Receipt :=
            ⟨jsOr bodyName "Additional Receipt", b64encode f.buffer,
             f.mimetype, f.originalname, f.size⟩
          (⟨200, some { a with receipts := a.receipts ++ [r] }⟩,
           store.map (fun b => if b.id == id && b.userId == uid
             then { b with receipts := b.receipts ++ [r] } else b))

/-- `PUT /appliance/:id/receipt` route: multer (`upload.single`) runs
first with the same filter and limit; its error is again answered 500 by
the error middleware before the handler runs. -/
def putReceiptRoute (uid : Nat) (id : Nat) (file : Option File)
    (bodyName : Option String) (store : List Appliance) : Response × List Appliance :=
  match file with
  | some f =>
      match multerPartErr f with
      | some _ => (⟨500, none⟩, store)
      | none => appendReceipt uid id file bodyName store
  | none => appendReceipt uid id none bodyName store

/-! ### JWT issuance (`routes/user.js`) -/

/-- A decoded JWT payload: the subject id and the optional `exp` claim
(absolute expiry, seconds). -/
structure JwtPayload where
  userId : Nat
  exp : Option Nat
deriving Repr, DecidableEq

/-- `jwt.sign(payload, secret, {expiresIn})` at issue time `now`:
`exp = now + expiresIn` when a window is given, and no `exp` claim at
all otherwise. -/
def jwtSign (userId : Nat) (now : Nat) (expiresIn : Option Nat) : JwtPayload :=
  ⟨userId, expiresIn.map (fun w => now + w)⟩

/-- `POST /user/signin` mints `jwt.sign({userId}, JWT_SECRET)` — no
`expiresIn` option. -/
def signinToken (userId : Nat) (now : Nat) : JwtPayload := jwtSign userId now none

/-- `POST /user/signup` mints with `expiresIn: '12h'` (43200 s). -/
def signupToken (userId : Nat) (now : Nat) : JwtPayload :=
  jwtSign userId now (some (12 * 3600))

/-- `POST /user/google` mints with `expiresIn: '7d'` (604800 s). -/
def googleToken (userId : Nat) (now : Nat) : JwtPayload :=
  jwtSign userId now (some (7 * 24 * 3600))

/-- `jwt.verify` raises `TokenExpiredError` exactly when the payload has
an `exp` claim and the verification clock has reached it. -/
def verifyExpired (t : JwtPayload) (now : Nat) : Bool :=
  match t.exp with
  | some e => e ≤ now
  | none => false

/-! ### Shared lemmas and concrete fixtures -/

lemma compressBuffer_valid (b : List Nat) (hv : ValidBytes b) :
    ValidBytes (compressBuffer b) := by
  intro x hx
  have hdr : ∀ y ∈ gzipHeader, y < 256 := by decide
  simp only [compressBuffer, gzip, List.mem_append, List.mem_cons, List.not_mem_nil,
    or_false] at hx
  rcases hx with (h | h) | h | h
  · exact hdr x h
  · exact hv x h
  · subst h; unfold checksum; exact Nat.mod_lt _ (by norm_num)
  · subst h; exact Nat.mod_lt _ (by norm_num)

/-- The stored-asset invariant for one embedded asset written by the add
path: the stored size is the original byte length, the stored data is the
compressed bytes re-encoded as base64 text, and decoding plus
decompression restores the original buffer. -/
def AssetInv (origBuf dataF : List Nat) (sizeF : Nat) : Prop :=
  sizeF = origBuf.length ∧ dataF = b64encode (compressBuffer origBuf) ∧
  decompressBuffer (b64decode dataF) = origBuf

lemma assetInv_mk (buf : List Nat) (hv : ValidBytes buf) :
    AssetInv buf (b64encode (compressBuffer buf)) buf.length := by
  refine ⟨rfl, rfl, ?_⟩
  rw [b64_roundtrip _ (compressBuffer_valid buf hv)]
  exact decompressBuffer_compressBuffer buf

lemma compressBufferE_gzOk (b : List Nat) :
    compressBufferE gzOk b = Except.ok (gzip b) := rfl

lemma compressBufferE_ok (gz : List Nat → Except String (List Nat)) (b c : List Nat)
    (h : compressBufferE gz b = Except.ok c) : gz b = Except.ok c := by
  unfold compressBufferE at h
  cases hg : gz b with
  | ok c' => rw [hg] at h; exact h
  | error e => rw [hg] at h; cases h

lemma multerPartErr_of_big (f : File) (h : f.size > maxFileSize) :
    multerPartErr f ≠ none := by
  unfold multerPartErr
  by_cases hm : f.mimetype ∈ allowedTypes
  · rw [if_pos hm, if_pos h]; simp
  · rw [if_neg hm]; simp

lemma multerPartErr_of_type (f : File) (h : f.mimetype ∉ allowedTypes) :
    multerPartErr f ≠ none := by
  unfold multerPartErr
  rw [if_neg h]
  simp

lemma postAddRoute_of_err (uid : Nat) (gz : List Nat → Except String (List Nat))
    (dp : String → Bool) (files : AddFiles) (body : AddBody) (store : List Appliance)
    (e : String)
    (he : multerCheck (files.productImage.toList ++ files.originalReceipt.toList ++
      files.insuranceReceipt.toList) = some e) :
    postAddRoute uid gz dp files body store = (⟨500, none⟩, store) := by
  unfold postAddRoute
  rw [he]

lemma putReceiptRoute_of_err (uid id : Nat) (f : File) (nm : Option String)
    (store : List Appliance) (e : String) (hpe : multerPartErr f = some e) :
    putReceiptRoute uid id (some f) nm store = (⟨500, none⟩, store) := by
  simp [putReceiptRoute, hpe]

lemma multerCheck_of_err (l : List File) (f : File) (hf : f ∈ l)
    (he : multerPartErr f ≠ none) : ∃ e, multerCheck l = some e := by
  induction l with
  | nil => cases hf
  | cons g rest ih =>
      cases hg : multerPartErr g with
      | some e => exact ⟨e, by simp [multerCheck, hg]⟩
      | none =>
          rcases List.mem_cons.mp hf with h | h
          · subst h; exact absurd hg he
          · rcases ih h with ⟨e, hrec⟩
            exact ⟨e, by simp [multerCheck, hg, hrec]⟩

/-- Exhaustive shape of the `POST /add` handler: either an error response
with the store unchanged and no returned document, or the successful
insertion of the constructed appliance. -/
lemma addAppliance_cases (uid : Nat) (gz : List Nat → Except String (List Nat))
    (dp : String → Bool) (files : AddFiles) (body : AddBody) (store : List Appliance) :
    (∃ st, addAppliance uid gz dp files body store = (⟨st, none⟩, store) ∧
      (st = 400 ∨ st = 500)) ∨
    (∃ data pimg orig cpi cor insv,
      files.productImage = some pimg ∧ files.originalReceipt = some orig ∧
      safeParse dp body.fields = some data ∧
      compressBufferE gz pimg.buffer = Except.ok cpi ∧
      compressBufferE gz orig.buffer = Except.ok cor ∧
      ((insv = none ∧ files.insuranceReceipt = none) ∨
        (∃ ins cin, insv = some (ins, cin) ∧ files.insuranceReceipt = some ins ∧
          compressBufferE gz ins.buffer = Except.ok cin)) ∧
      addAppliance uid gz dp files body store =
        (⟨200, some (mkAppliance uid data pimg cpi orig cor insv body store)⟩,
         store ++ [mkAppliance uid data pimg cpi orig cor insv body store])) := by
  cases hor : files.originalReceipt with
  | none => exact Or.inl ⟨400, by simp [addAppliance, hor], Or.inl rfl⟩
  | some orig =>
  cases hbd : body.purchaseDate with
  | none => exact Or.inl ⟨400, by simp [addAppliance, hor, hbd], Or.inl rfl⟩
  | some d =>
  cases hdp : dp d with
  | false => exact Or.inl ⟨400, by simp [addAppliance, hor, hbd, hdp], Or.inl rfl⟩
  | true =>
  cases hsp : safeParse dp body.fields with
  | none => exact Or.inl ⟨400, by simp [addAppliance, hor, hbd, hdp, hsp], Or.inl rfl⟩
  | some data =>
  cases hpi : files.productImage with
  | none => exact Or.inl ⟨400, by simp [addAppliance, hor, hbd, hdp, hsp, hpi], Or.inl rfl⟩
  | some pimg =>
  cases hcp : compressBufferE gz pimg.buffer with
  | error e =>
      exact Or.inl ⟨500, by simp [addAppliance, hor, hbd, hdp, hsp, hpi, hcp], Or.inr rfl⟩
  | ok cpi =>
  cases hco : compressBufferE gz orig.buffer with
  | error e =>
      exact Or.inl ⟨500, by simp [addAppliance, hor, hbd, hdp, hsp, hpi, hcp, hco], Or.inr rfl⟩
  | ok cor =>
  cases hins : files.insuranceReceipt with
  | none =>
      refine Or.inr ⟨data, pimg, orig, cpi, cor, none, rfl, rfl, rfl, hcp, hco,
        Or.inl ⟨rfl, rfl⟩, ?_⟩
      simp [addAppliance, hor, hbd, hdp, hsp, hpi, hcp, hco, hins]
  | some ins =>
  cases hci : compressBufferE gz ins.buffer with
  | error e =>
      exact Or.inl ⟨500,
        by simp [addAppliance, hor, hbd, hdp, hsp, hpi, hcp, hco, hins, hci], Or.inr rfl⟩
  | ok cin =>
      refine Or.inr ⟨data, pimg, orig, cpi, cor, some (ins, cin), rfl, rfl, rfl, hcp, hco,
        Or.inr ⟨ins, cin, rfl, rfl, hci⟩, ?_⟩
      simp [addAppliance, hor, hbd, hdp, hsp, hpi, hcp, hco, hins, hci]

/-- A date parser instance for concrete runs: any non-empty string. -/
def dpEx (s : String) : Bool := s.length > 0

/-- Concrete fixtures. -/
def assetA : Asset := ⟨b64encode (compressBuffer [10, 20]), "image/png", "a.png", 2⟩

def receiptA : Receipt :=
  ⟨"Original Receipt", b64encode (compressBuffer [9]), "application/pdf", "r.pdf", 1⟩

def applA : Appliance :=
  ⟨3, 1, "TV", some "LG", "M1", "2024-01-02", assetA, [receiptA]⟩

def applB : Appliance :=
  ⟨7, 2, "Fridge", some "LG", "M1", "2024-01-02", assetA, [receiptA]⟩

def pimgEx : File := ⟨[1, 2, 3], "image/png", "p.png"⟩

def origEx : File := ⟨[4], "application/pdf", "o.pdf"⟩

def filesEx : AddFiles := ⟨some pimgEx, some origEx, none⟩

def bodyEx : AddBody := ⟨some "TV", none, some "M1", some "2024-01-02", none, none⟩

/-- A compressor environment whose gzip always fails. -/
def gzBad : List Nat → Except String (List Nat) := fun _ => Except.error "boom"

/-! ### Claims -/

/-- C4: Codec round-trip — for every byte buffer B,
`decompress(compress(B))` equals B. -/
theorem C4_codec_roundtrip (b : List Nat) : decompressBuffer (compressBuffer b) = b :=
  decompressBuffer_compressBuffer b

/-- A gzip member differing from `compressBuffer []` only in the header's
OS octet: valid compressed data that `compressBuffer` never produces. -/
def foreignGzip : List Nat := [31, 139, 8, 0, 0, 0, 0, 0, 0, 0, 0, 0]

/-- C5 counterexample: `foreignGzip` is not produced by `compressBuffer`
on any input, yet `decompressBuffer` does not return it unchanged (it
decompresses it to `[]`), refuting "for every byte buffer B not produced
by compress, decompress(B) returns B unchanged". -/
theorem C5_counterexample :
    (∀ b, compressBuffer b ≠ foreignGzip) ∧
    decompressBuffer foreignGzip ≠ foreignGzip := by
  constructor
  · intro b h
    simp [compressBuffer, gzip, gzipHeader, foreignGzip, List.cons.injEq] at h
  · decide

/-- C5 (amended): whenever the leading 2 bytes of a buffer do not match
the gzip magic marker, `decompressBuffer` returns the input unchanged.
(Buffers that do begin with the marker may be transformed: valid
compressed data decompresses, corrupt data is returned unchanged.) -/
theorem C5_tolerance_amended (buf : List Nat) (h : isGzipped buf = false) :
    decompressBuffer buf = buf := by
  simp [decompressBuffer, h]

/-- C5 witness: the unmarked buffer `[1, 2, 3]` passes through unchanged. -/
theorem C5_tolerance_witness :
    isGzipped [1, 2, 3] = false ∧ decompressBuffer [1, 2, 3] = [1, 2, 3] :=
  ⟨by decide, C5_tolerance_amended [1, 2, 3] (by decide)⟩

/-- C6: Codec swallow policy — whenever a buffer carries the gzip magic
marker but its payload is corrupt (gunzip fails), `decompressBuffer`
swallows the failure (it is a total function, no error reaches the
caller) and returns the original input bytes as-is. -/
theorem C6_swallow_policy (buf : List Nat) (h1 : isGzipped buf = true)
    (h2 : gunzip buf = none) : decompressBuffer buf = buf := by
  simp [decompressBuffer, h1, h2]

/-- The spec's scenario: `compressBuffer [1..10]` with one interior data
byte corrupted (first payload byte 1 changed to 2). -/
def corruptGzip : List Nat :=
  [31, 139, 8, 0, 0, 0, 0, 0, 0, 3, 2, 2, 3, 4, 5, 6, 7, 8, 9, 10, 65, 10]

/-- C6 witness: the corrupted member is marked, gunzip rejects it, and
`decompressBuffer` returns it unchanged. -/
theorem C6_swallow_witness :
    isGzipped corruptGzip = true ∧ gunzip corruptGzip = none ∧
    decompressBuffer corruptGzip = corruptGzip :=
  ⟨by decide, by decide, C6_swallow_policy corruptGzip (by decide) (by decide)⟩

/-- C10: a token minted by plain signin carries no `exp` claim, so its
verification never fails as expired at any clock; signup tokens expire
exactly 12 hours (43200 s) after issue and federated Google-login tokens
exactly 7 days (604800 s) after issue. -/
theorem C10_signin_token_no_expiry (uid t now : Nat) :
    (signinToken uid t).exp = none ∧
    verifyExpired (signinToken uid t) now = false ∧
    verifyExpired (signupToken uid t) now = decide (t + 43200 ≤ now) ∧
    verifyExpired (googleToken uid t) now = decide (t + 604800 ≤ now) := by
  refine ⟨rfl, rfl, ?_, ?_⟩ <;>
    simp [verifyExpired, signupToken, googleToken, jwtSign]

/-- C1: the code violates ownership isolation.  With appliance 7 owned by
user 2, user 1's GET returns it with status 200 (the handler queries by
id only), user 1's PUT modifies it with status 200, while only DELETE is
owner-scoped and correctly answers 404 leaving the store unchanged. -/
theorem C1_ownership_bug :
    (getApplianceById 1 7 [applB]).status = 200 ∧
    ((getApplianceById 1 7 [applB]).appliance.map Appliance.userId) = some 2 ∧
    (updateAppliance 1 7 dpEx ⟨some "Hacked", none, some "M2", some "2024-02-02"⟩
      [applB]).1.status = 200 ∧
    ((updateAppliance 1 7 dpEx ⟨some "Hacked", none, some "M2", some "2024-02-02"⟩
      [applB]).2.map Appliance.name) = ["Hacked"] ∧
    deleteAppliance 1 7 [applB] = (⟨404, none⟩, [applB]) := by
  decide

/-- C2 counterexample: the receipt appended by `PUT /:id/receipt` stores
the raw uploaded bytes base64-encoded, not the compress-transformed
bytes, refuting the claim for the appendReceipt write path. -/
theorem C2_counterexample :
    ((appendReceipt 1 3 (some ⟨[5, 6], "application/pdf", "x.pdf"⟩) none [applA]).1.appliance.map
      (fun a => a.receipts.map Receipt.data)) =
      some [receiptA.data, b64encode [5, 6]] ∧
    b64encode [5, 6] ≠ b64encode (compressBuffer [5, 6]) := by
  decide

/-- C2 (amended): assets embedded by add-appliance (productImage and the
original/insurance receipts) store `fileSize` equal to the original byte
length and `data` as the compress-transformed bytes re-encoded as base64
text, and decoding plus decompression restores the original buffer; the
receipt appended by appendReceipt instead stores the RAW uploaded bytes
base64-encoded (no compression), still with `fileSize` equal to the
original byte length. -/
theorem C2_stored_asset_amended (uid uid2 id : Nat) (dp : String → Bool)
    (files : AddFiles) (body : AddBody) (store store2 : List Appliance)
    (pimg orig f : File) (nm : Option String)
    (hpi : files.productImage = some pimg)
    (hor : files.originalReceipt = some orig)
    (hv : ValidBytes pimg.buffer) (hvo : ValidBytes orig.buffer)
    (h200 : (addAppliance uid gzOk dp files body store).1.status = 200) :
    (∃ app, (addAppliance uid gzOk dp files body store).1.appliance = some app ∧
      AssetInv pimg.buffer app.productImage.data app.productImage.fileSize ∧
      (∃ r1, app.receipts.head? = some r1 ∧ AssetInv orig.buffer r1.data r1.fileSize) ∧
      (∀ ins, files.insuranceReceipt = some ins → ValidBytes ins.buffer →
        ∃ r2, app.receipts.getLast? = some r2 ∧ AssetInv ins.buffer r2.data r2.fileSize)) ∧
    (∀ app', (appendReceipt uid2 id (some f) nm store2).1.appliance = some app' →
      ∃ r, app'.receipts.getLast? = some r ∧ r.data = b64encode f.buffer ∧
        r.fileSize = f.buffer.length) := by
  constructor
  · rcases addAppliance_cases uid gzOk dp files body store with
      ⟨st, heq, hst⟩ | ⟨data, pimg', orig', cpi, cor, insv, hpi', hor', hsp, hcp, hco, hinsv, heq⟩
    · rw [heq] at h200
      simp only [Response.status] at h200
      rcases hst with h | h <;> omega
    · have hpe : pimg = pimg' := Option.some.inj (hpi.symm.trans hpi')
      have hoe : orig = orig' := Option.some.inj (hor.symm.trans hor')
      subst hpe hoe
      have hcpi : cpi = compressBuffer pimg.buffer :=
        (Except.ok.inj ((compressBufferE_gzOk pimg.buffer).symm.trans hcp)).symm
      have hcor : cor = compressBuffer orig.buffer :=
        (Except.ok.inj ((compressBufferE_gzOk orig.buffer).symm.trans hco)).symm
      subst hcpi hcor
      rw [heq]
      refine ⟨mkAppliance uid data pimg (compressBuffer pimg.buffer) orig
        (compressBuffer orig.buffer) insv body store, rfl, ?_, ?_, ?_⟩
      · exact assetInv_mk pimg.buffer hv
      · exact ⟨_, rfl, assetInv_mk orig.buffer hvo⟩
      · intro ins hins hvi
        rcases hinsv with ⟨hnone, hins'⟩ | ⟨ins', cin, hinsv', hins', hci⟩
        · rw [hins'] at hins; cases hins
        · have hie : ins = ins' := Option.some.inj (hins.symm.trans hins')
          subst hie
          have hcin : cin = compressBuffer ins.buffer :=
            (Except.ok.inj ((compressBufferE_gzOk ins.buffer).symm.trans hci)).symm
          subst hcin hinsv'
          exact ⟨_, rfl, assetInv_mk ins.buffer hvi⟩
  · intro app' happ
    unfold appendReceipt at happ
    cases hf : store2.find? (fun a => a.id == id && a.userId == uid2) with
    | none => rw [hf] at happ; cases happ
    | some a =>
        rw [hf] at happ
        have ha : app' = { a with receipts := a.receipts ++
            [⟨jsOr nm "Additional Receipt", b64encode f.buffer,
              f.mimetype, f.originalname, f.size⟩] } :=
          (Option.some.inj happ).symm
        refine ⟨⟨jsOr nm "Additional Receipt", b64encode f.buffer,
          f.mimetype, f.originalname, f.size⟩, ?_, rfl, rfl⟩
        rw [ha]
        exact List.getLast?_concat _

/-- C2 witness: at a concrete successful add, the invariant holds for the
stored product image. -/
theorem C2_stored_asset_witness :
    (addAppliance 1 gzOk dpEx filesEx bodyEx []).1.status = 200 ∧
    ∃ app, (addAppliance 1 gzOk dpEx filesEx bodyEx []).1.appliance = some app ∧
      AssetInv pimgEx.buffer app.productImage.data app.productImage.fileSize := by
  refine ⟨by decide, ?_⟩
  obtain ⟨⟨app, happ, hinv, _, _⟩, _⟩ :=
    C2_stored_asset_amended 1 1 3 dpEx filesEx bodyEx [] [] pimgEx origEx origEx none rfl rfl
      (by decide) (by decide) (by decide)
  exact ⟨app, happ, hinv⟩

/-- C3 counterexample: an update supplying only `name` is rejected with
400 and changes nothing (no partial merge), and an update supplying the
required fields but omitting `companyName` overwrites the stored
`companyName` (`some "LG"`) with null rather than leaving it untouched. -/
theorem C3_counterexample :
    (updateAppliance 1 3 dpEx ⟨some "TV", none, none, none⟩ [applA]).1.status = 400 ∧
    (updateAppliance 1 3 dpEx ⟨some "TV", none, none, none⟩ [applA]).2 = [applA] ∧
    applA.companyName = some "LG" ∧
    ((updateAppliance 1 3 dpEx ⟨some "TV", none, some "M2", some "2024-01-05"⟩ [applA]).2.map
      Appliance.companyName) = [none] := by
  decide

/-- C3 (amended): an appliance update must supply name, modelNumber and
purchaseDate (otherwise 400 and the store unchanged); when it validates,
only the documents with the requested id change, and on them the four
schema fields are written while productImage, receipts, owner and id are
left untouched; companyName is nullable and settable to null, but when
absent (or empty) it is overwritten with null, not left untouched. -/
theorem C3_update_partial_merge_amended (uid id : Nat) (dp : String → Bool)
    (body : ApplianceBody) (store : List Appliance) :
    (safeParse dp body = none →
      updateAppliance uid id dp body store = (⟨400, none⟩, store)) ∧
    (∀ d, safeParse dp body = some d →
      d.companyName = body.companyName ∧
      ((updateAppliance uid id dp body store).2 = store ∨
        (updateAppliance uid id dp body store).2 =
          store.map (fun b => if b.id == id then applyUpdate d b else b))) ∧
    (∀ d a, (applyUpdate d a).productImage = a.productImage ∧
      (applyUpdate d a).receipts = a.receipts ∧
      (applyUpdate d a).userId = a.userId ∧
      (applyUpdate d a).id = a.id ∧
      (applyUpdate d a).name = d.name ∧
      (applyUpdate d a).modelNumber = d.modelNumber ∧
      (applyUpdate d a).purchaseDate = d.purchaseDate ∧
      (applyUpdate d a).companyName = jsOrNull d.companyName) := by
  refine ⟨?_, ?_, ?_⟩
  · intro h
    simp [updateAppliance, h]
  · intro d hd
    constructor
    · unfold safeParse at hd
      cases hn : body.name with
      | none => rw [hn] at hd; cases hd
      | some n =>
        cases hm : body.modelNumber with
        | none => rw [hn, hm] at hd; cases hd
        | some m =>
          cases hdt : body.purchaseDate with
          | none => rw [hn, hm, hdt] at hd; cases hd
          | some dt =>
            rw [hn, hm, hdt] at hd
            by_cases hc : n.length ≥ 1 ∧ m.length ≥ 1 ∧ dp dt
            · have hd' : some (⟨n, body.companyName, m, dt⟩ : ParsedAppliance) = some d := by
                rw [← hd]
                show some _ = (if n.length ≥ 1 ∧ m.length ≥ 1 ∧ dp dt then
                  some (⟨n, body.companyName, m, dt⟩ : ParsedAppliance) else none)
                rw [if_pos hc]
              injection hd' with h
              rw [← h]
            · have hd' : (none : Option ParsedAppliance) = some d := by
                rw [← hd]
                show (none : Option ParsedAppliance) =
                  (if n.length ≥ 1 ∧ m.length ≥ 1 ∧ dp dt then
                    some (⟨n, body.companyName, m, dt⟩ : ParsedAppliance) else none)
                rw [if_neg hc]
              cases hd'
    · unfold updateAppliance
      rw [hd]
      cases hf : store.find? (fun a => a.id == id) with
      | none => exact Or.inl rfl
      | some a => exact Or.inr rfl
  · intro d a
    exact ⟨rfl, rfl, rfl, rfl, rfl, rfl, rfl, rfl⟩

/-- A 5 MiB + 1 byte upload part with an allowed content-type. -/
def bigFile : File := ⟨List.replicate (5 * 1024 * 1024 + 1) 0, "image/png", "big.png"⟩

def filesBig : AddFiles := ⟨some bigFile, some origEx, none⟩

lemma bigFile_size : bigFile.size > maxFileSize := by
  show (List.replicate (5 * 1024 * 1024 + 1) 0).length > maxFileSize
  rw [List.length_replicate]
  norm_num [maxFileSize]

/-- C7 counterexample: a 5 MiB + 1 add-appliance upload is answered with
status 500 by the error middleware — not the claimed 400 ValidationError
response (the store is still unchanged). -/
theorem C7_counterexample :
    postAddRoute 1 gzOk dpEx filesBig bodyEx [] = (⟨500, none⟩, []) ∧ (500 : Nat) ≠ 400 := by
  constructor
  · obtain ⟨e, he⟩ := multerCheck_of_err
      (filesBig.productImage.toList ++ filesBig.originalReceipt.toList ++
        filesBig.insuranceReceipt.toList) bigFile (by simp [filesBig])
      (multerPartErr_of_big bigFile bigFile_size)
    exact postAddRoute_of_err 1 gzOk dpEx filesBig bodyEx [] e he
  · norm_num

/-- C7 (amended): an upload containing a part larger than 5 MiB is
rejected by the multer middleware before the handler runs — the error
middleware answers 500 (not a 400 ValidationError) — and no Appliance is
created and no receipt appended: the store is unchanged. -/
theorem C7_size_gate_amended (uid id : Nat) (gz : List Nat → Except String (List Nat))
    (dp : String → Bool) (files : AddFiles) (body : AddBody) (store store2 : List Appliance)
    (f f2 : File) (nm : Option String)
    (hmem : f ∈ files.productImage.toList ++ files.originalReceipt.toList ++
      files.insuranceReceipt.toList)
    (hbig : f.size > maxFileSize) (hbig2 : f2.size > maxFileSize) :
    postAddRoute uid gz dp files body store = (⟨500, none⟩, store) ∧
    putReceiptRoute uid id (some f2) nm store2 = (⟨500, none⟩, store2) := by
  constructor
  · obtain ⟨e, he⟩ := multerCheck_of_err _ f hmem (multerPartErr_of_big f hbig)
    exact postAddRoute_of_err uid gz dp files body store e he
  · cases hpe : multerPartErr f2 with
    | some e => exact putReceiptRoute_of_err uid id f2 nm store2 e hpe
    | none => exact absurd hpe (multerPartErr_of_big f2 hbig2)

/-- C7 witness: the concrete 5 MiB + 1 part is rejected on both routes
with 500 and unchanged stores. -/
theorem C7_size_gate_witness :
    bigFile.size > maxFileSize ∧
    postAddRoute 1 gzOk dpEx filesBig bodyEx [] = (⟨500, none⟩, []) ∧
    putReceiptRoute 1 3 (some bigFile) none [applA] = (⟨500, none⟩, [applA]) := by
  have h := C7_size_gate_amended 1 3 gzOk dpEx filesBig bodyEx [] [applA] bigFile bigFile none
    (by simp [filesBig]) bigFile_size bigFile_size
  exact ⟨bigFile_size, h.1, h.2⟩

/-- C8: add-appliance atomicity — when the environment gzip fails on the
productImage or the originalReceipt buffer, the request answers an error
status (≥ 400), returns no document, and the store is unchanged. -/
theorem C8_add_atomicity (uid : Nat) (gz : List Nat → Except String (List Nat))
    (dp : String → Bool) (files : AddFiles) (body : AddBody) (store : List Appliance)
    (hfail : (∃ pimg e, files.productImage = some pimg ∧ gz pimg.buffer = Except.error e) ∨
             (∃ orig e, files.originalReceipt = some orig ∧ gz orig.buffer = Except.error e)) :
    (addAppliance uid gz dp files body store).2 = store ∧
    400 ≤ (addAppliance uid gz dp files body store).1.status ∧
    (addAppliance uid gz dp files body store).1.appliance = none := by
  rcases addAppliance_cases uid gz dp files body store with
    ⟨st, heq, hst⟩ | ⟨data, pimg', orig', cpi, cor, insv, hpi', hor', hsp, hcp, hco, hinsv, heq⟩
  · rw [heq]
    refine ⟨rfl, ?_, rfl⟩
    show 400 ≤ st
    rcases hst with h | h <;> omega
  · exfalso
    rcases hfail with ⟨pimg, e, hpi, hgz⟩ | ⟨orig, e, hor, hgz⟩
    · have hpe : pimg = pimg' := Option.some.inj (hpi.symm.trans hpi')
      rw [hpe, compressBufferE_ok gz pimg'.buffer cpi hcp] at hgz
      cases hgz
    · have hoe : orig = orig' := Option.some.inj (hor.symm.trans hor')
      rw [hoe, compressBufferE_ok gz orig'.buffer cor hco] at hgz
      cases hgz

/-- C8 witness: with a compressor that always fails, the concrete add
request aborts and leaves the store unchanged. -/
theorem C8_add_atomicity_witness :
    gzBad pimgEx.buffer = Except.error "boom" ∧
    (addAppliance 1 gzBad dpEx filesEx bodyEx [applA]).2 = [applA] ∧
    400 ≤ (addAppliance 1 gzBad dpEx filesEx bodyEx [applA]).1.status := by
  have h := C8_add_atomicity 1 gzBad dpEx filesEx bodyEx [applA]
    (Or.inl ⟨pimgEx, "boom", rfl, rfl⟩)
  exact ⟨rfl, h.1, h.2.1⟩

/-- A part with a disallowed content-type but an allowed filename
extension. -/
def sneaky : File := ⟨[1], "text/plain", "a.jpg"⟩

/-- C9 counterexample: on `POST /user/upload` (whose filter checks only
the filename extension) a part with disallowed content-type `text/plain`
but filename `a.jpg` is ACCEPTED with 200, refuting "for every upload
request ... the request is rejected". -/
theorem C9_counterexample :
    sneaky.mimetype ∉ allowedTypes ∧ userUploadRoute (some sneaky) = ⟨200, none⟩ := by
  decide

/-- A part with a disallowed content-type for the appliance routes. -/
def sneakyBin : File := ⟨[1], "text/plain", "x.bin"⟩

def filesBadType : AddFiles := ⟨some sneakyBin, some origEx, none⟩

/-- C9 (amended): on the appliance upload routes — the only routes that
invoke compress — a part whose content-type is outside the allow-list is
rejected by the multer fileFilter before the handler, with the error
middleware's 500 and the store unchanged; in particular the outcome is
identical for every compressor environment, so compress is never invoked.
The user-route upload filter instead checks only the filename extension
and accepts disallowed content-types carrying an allowed extension (it
never compresses anything). -/
theorem C9_type_gate_amended (uid id : Nat) (gz gz' : List Nat → Except String (List Nat))
    (dp : String → Bool) (files : AddFiles) (body : AddBody) (store store2 : List Appliance)
    (f f2 : File) (nm : Option String)
    (hmem : f ∈ files.productImage.toList ++ files.originalReceipt.toList ++
      files.insuranceReceipt.toList)
    (hbad : f.mimetype ∉ allowedTypes) (hbad2 : f2.mimetype ∉ allowedTypes) :
    postAddRoute uid gz dp files body store = (⟨500, none⟩, store) ∧
    postAddRoute uid gz dp files body store = postAddRoute uid gz' dp files body store ∧
    putReceiptRoute uid id (some f2) nm store2 = (⟨500, none⟩, store2) := by
  obtain ⟨e, he⟩ := multerCheck_of_err _ f hmem (multerPartErr_of_type f hbad)
  refine ⟨?_, ?_, ?_⟩
  · exact postAddRoute_of_err uid gz dp files body store e he
  · rw [postAddRoute_of_err uid gz dp files body store e he,
      postAddRoute_of_err uid gz' dp files body store e he]
  · cases hpe : multerPartErr f2 with
    | some e2 => exact putReceiptRoute_of_err uid id f2 nm store2 e2 hpe
    | none => exact absurd hpe (multerPartErr_of_type f2 hbad2)

/-- C9 witness: the concrete disallowed-type part is rejected on the add
route identically under two different compressor environments. -/
theorem C9_type_gate_witness :
    sneakyBin.mimetype ∉ allowedTypes ∧
    postAddRoute 1 gzOk dpEx filesBadType bodyEx [] = (⟨500, none⟩, []) ∧
    postAddRoute 1 gzOk dpEx filesBadType bodyEx [] =
      postAddRoute 1 gzBad dpEx filesBadType bodyEx [] := by
  have h := C9_type_gate_amended 1 3 gzOk gzBad dpEx filesBadType bodyEx [] [] sneakyBin
    sneakyBin none (by simp [filesBadType]) (by decide) (by decide)
  exact ⟨by decide, h.1, h.2.1⟩

end NotRisk
